import Mathlib

/-!
Verification of the keras-gym DQN driver script (notebooks/atari/dqn.ipynb).

The script defines a piecewise-linear exploration schedule `epsilon` and a
training loop that periodically writes GIF artifacts, performs batch updates
after a warmup period, and synchronizes a target model. Real arithmetic is
embedded as exact rational arithmetic over ℚ. The external library calls
(environment, replay buffer, value function, GIF writer, directory creation)
are embedded as an abstract record of fallible operations; the loop body is
embedded as a function producing the resulting trace of external calls.
-/

namespace DQN

/-- Static parameter from the script: number of steps before learning starts. -/
def buffer_warmup_period : ℕ := 50000

/-- Static parameter from the script: period of target-model synchronization. -/
def target_model_sync_period : ℕ := 10000

/-- Static parameter from the script: number of episodes of the outer loop. -/
def num_episodes : ℕ := 3000000

/-- Exploration schedule from the script, with floats read as exact rationals:
stepwise linear annealing with breakpoints at M and 2M, M = 1000000. -/
def epsilon (T : ℕ) : ℚ :=
  let M : ℕ := 1000000
  if T < M then 1 - 0.9 * T / M
  else if T < 2 * M then 0.1 - 0.09 * ((T : ℚ) - M) / M
  else 0.01

/-- First-segment formula of the schedule, as written in the source. -/
def epsilonSeg1 (T : ℚ) : ℚ := 1 - 0.9 * T / 1000000

/-- Second-segment formula of the schedule, as written in the source. -/
def epsilonSeg2 (T : ℚ) : ℚ := 0.1 - 0.09 * (T - 1000000) / 1000000

lemma epsilon_of_lt (T : ℕ) (h : T < 1000000) :
    epsilon T = 1 - 0.9 * T / 1000000 := by
  simp only [epsilon]
  rw [if_pos h]
  norm_num

lemma epsilon_of_mid (T : ℕ) (h1 : 1000000 ≤ T) (h2 : T < 2000000) :
    epsilon T = 0.1 - 0.09 * ((T : ℚ) - 1000000) / 1000000 := by
  simp only [epsilon]
  rw [if_neg (by omega), if_pos (by omega)]
  norm_num

lemma epsilon_of_ge (T : ℕ) (h : 2000000 ≤ T) : epsilon T = 0.01 := by
  simp only [epsilon]
  rw [if_neg (by omega), if_neg (by omega)]

/-- C1: for every non-negative integer T with M = 1000000, epsilon returns
1 - 0.9*T/M when T < M, returns 0.1 - 0.09*(T - M)/M when M ≤ T < 2M, and
returns 0.01 when T ≥ 2M. -/
theorem epsilon_piecewise (T : ℕ) :
    (T < 1000000 → epsilon T = 1 - 0.9 * T / 1000000) ∧
    (1000000 ≤ T → T < 2000000 →
      epsilon T = 0.1 - 0.09 * ((T : ℚ) - 1000000) / 1000000) ∧
    (2000000 ≤ T → epsilon T = 0.01) :=
  ⟨epsilon_of_lt T, epsilon_of_mid T, epsilon_of_ge T⟩

/-- Witness for C1: each of the three branches evaluated at a concrete input. -/
theorem epsilon_piecewise_witness :
    epsilon 500000 = 1 - 0.9 * 500000 / 1000000 ∧
    epsilon 1500000 = 0.1 - 0.09 * ((1500000 : ℚ) - 1000000) / 1000000 ∧
    epsilon 2500000 = 0.01 :=
  ⟨by
      have h := (epsilon_piecewise 500000).1 (by norm_num)
      simpa using h,
   by
      have h := (epsilon_piecewise 1500000).2.1 (by norm_num) (by norm_num)
      simpa using h,
   (epsilon_piecewise 2500000).2.2 (by norm_num)⟩

/-- C2: the schedule takes its specified exact values at the segment
boundaries: epsilon 0 = 1, epsilon 1000000 = 0.1, epsilon 2000000 = 0.01. -/
theorem epsilon_boundary_values :
    epsilon 0 = 1 ∧ epsilon 1000000 = 0.1 ∧ epsilon 2000000 = 0.01 := by
  refine ⟨?_, ?_, ?_⟩
  · rw [epsilon_of_lt 0 (by norm_num)]; norm_num
  · rw [epsilon_of_mid 1000000 (by norm_num) (by norm_num)]; norm_num
  · rw [epsilon_of_ge 2000000 (by norm_num)]

/-- C4: the schedule is continuous at its two breakpoints: the first-segment
formula at T = 1000000 equals the second-segment value 0.1 taken by epsilon
there, and the second-segment formula at T = 2000000 equals the floor value
0.01 taken by epsilon there. -/
theorem epsilon_continuous_at_breakpoints :
    epsilonSeg1 1000000 = epsilon 1000000 ∧ epsilon 1000000 = 0.1 ∧
    epsilonSeg2 2000000 = epsilon 2000000 ∧ epsilon 2000000 = 0.01 := by
  have h1 : epsilon 1000000 = 0.1 := by
    rw [epsilon_of_mid 1000000 (by norm_num) (by norm_num)]; norm_num
  have h2 : epsilon 2000000 = 0.01 := epsilon_of_ge 2000000 (by norm_num)
  refine ⟨?_, h1, ?_, h2⟩
  · rw [h1]; simp only [epsilonSeg1]; norm_num
  · rw [h2]; simp only [epsilonSeg2]; norm_num

lemma epsilon_seg1_bounds (T : ℕ) (h : T < 1000000) :
    0.1 < epsilon T ∧ epsilon T ≤ 1 := by
  rw [epsilon_of_lt T h]
  have hT : (T : ℚ) ≤ 999999 := by exact_mod_cast Nat.lt_succ_iff.mp h
  have hT0 : (0 : ℚ) ≤ T := by positivity
  constructor <;> [nlinarith; nlinarith]

lemma epsilon_seg2_bounds (T : ℕ) (h1 : 1000000 ≤ T) (h2 : T < 2000000) :
    0.01 < epsilon T ∧ epsilon T ≤ 0.1 := by
  rw [epsilon_of_mid T h1 h2]
  have hT : (T : ℚ) ≤ 1999999 := by exact_mod_cast Nat.lt_succ_iff.mp h2
  have hT0 : (1000000 : ℚ) ≤ T := by exact_mod_cast h1
  constructor <;> [nlinarith; nlinarith]

/-- C3: reading the arithmetic as exact rationals, epsilon T lies in
(0.1, 1] for T < 1000000, in (0.01, 0.1] for 1000000 ≤ T < 2000000, and
equals 0.01 for T ≥ 2000000. -/
theorem epsilon_range (T : ℕ) :
    (T < 1000000 → 0.1 < epsilon T ∧ epsilon T ≤ 1) ∧
    (1000000 ≤ T → T < 2000000 → 0.01 < epsilon T ∧ epsilon T ≤ 0.1) ∧
    (2000000 ≤ T → epsilon T = 0.01) :=
  ⟨epsilon_seg1_bounds T, epsilon_seg2_bounds T, epsilon_of_ge T⟩

/-- Witness for C3: the three range statements at concrete inputs. -/
theorem epsilon_range_witness :
    (0.1 < epsilon 999999 ∧ epsilon 999999 ≤ 1) ∧
    (0.01 < epsilon 1999999 ∧ epsilon 1999999 ≤ 0.1) ∧
    epsilon 2000001 = 0.01 :=
  ⟨(epsilon_range 999999).1 (by norm_num),
   (epsilon_range 1999999).2.1 (by norm_num) (by norm_num),
   (epsilon_range 2000001).2.2 (by norm_num)⟩

lemma epsilon_seg1_mono (T₁ T₂ : ℕ) (h : T₁ ≤ T₂) (h2 : T₂ < 1000000) :
    epsilon T₂ ≤ epsilon T₁ := by
  rw [epsilon_of_lt T₁ (lt_of_le_of_lt h h2), epsilon_of_lt T₂ h2]
  have hc : (T₁ : ℚ) ≤ T₂ := by exact_mod_cast h
  nlinarith

lemma epsilon_seg2_mono (T₁ T₂ : ℕ) (h1 : 1000000 ≤ T₁) (h : T₁ ≤ T₂)
    (h2 : T₂ < 2000000) : epsilon T₂ ≤ epsilon T₁ := by
  rw [epsilon_of_mid T₁ h1 (lt_of_le_of_lt h h2),
    epsilon_of_mid T₂ (le_trans h1 h) h2]
  have hc : (T₁ : ℚ) ≤ T₂ := by exact_mod_cast h
  nlinarith

/-- C9: epsilon is monotonically non-increasing: for all T₁ ≤ T₂,
epsilon T₁ ≥ epsilon T₂. -/
theorem epsilon_antitone (T₁ T₂ : ℕ) (h : T₁ ≤ T₂) :
    epsilon T₂ ≤ epsilon T₁ := by
  rcases lt_or_le T₂ 1000000 with h2 | h2
  · exact epsilon_seg1_mono T₁ T₂ h h2
  · rcases lt_or_le T₁ 1000000 with h1 | h1
    · -- T₁ in the first segment, T₂ beyond it: epsilon T₂ ≤ 0.1 < epsilon T₁
      have hlow : (0.1 : ℚ) < epsilon T₁ := (epsilon_seg1_bounds T₁ h1).1
      rcases lt_or_le T₂ 2000000 with h3 | h3
      · have := (epsilon_seg2_bounds T₂ h2 h3).2
        linarith
      · rw [epsilon_of_ge T₂ h3]; linarith
    · rcases lt_or_le T₂ 2000000 with h3 | h3
      · exact epsilon_seg2_mono T₁ T₂ h1 h h3
      · rw [epsilon_of_ge T₂ h3]
        rcases lt_or_le T₁ 2000000 with h4 | h4
        · have := (epsilon_seg2_bounds T₁ h1 h4).1
          linarith
        · rw [epsilon_of_ge T₁ h4]

/-- Witness for C9 at concrete inputs straddling a breakpoint. -/
theorem epsilon_antitone_witness : epsilon 1500000 ≤ epsilon 500000 :=
  epsilon_antitone 500000 1500000 (by norm_num)

/-- C5: epsilon is deterministic; it is a total pure function of its
argument alone, so equal arguments give equal results. -/
theorem epsilon_deterministic (T₁ T₂ : ℕ) (h : T₁ = T₂) :
    epsilon T₁ = epsilon T₂ := by rw [h]

/-- Witness for C5 at a concrete input. -/
theorem epsilon_deterministic_witness : epsilon 7 = epsilon 7 :=
  epsilon_deterministic 7 7 rfl

/-- Observable part of the wrapped environment: the global step counter T
and the episode counter ep maintained by the TrainMonitor wrapper, plus the
done flag returned by the last env.step call. -/
structure EnvState where
  T : ℕ
  ep : ℕ
  done : Bool
  deriving DecidableEq, Repr

/-- External library and filesystem operations the script calls into. Each
operation may fail, returning an error value, since the script installs no
handler of its own. The environment operations return the updated observable
state; the remaining operations are modelled by their success or failure. -/
structure Ext where
  reset : EnvState → Except String EnvState
  step : EnvState → Except String EnvState
  sample : Except String Unit
  batchUpdate : Except String Unit
  makeDirs : String → Except String Unit
  generateGif : String → Except String Unit
  syncTargetModel : Except String Unit

/-- Trace events recording the external calls the loop body performs. -/
inductive Event where
  | makeDirs (path : String)
  | generateGif (filepath : String)
  | reset
  | envStep
  | bufferAdd
  | bufferSample
  | batchUpdate
  | syncTargetModel
  | setEpsilon (e : ℚ)
  deriving DecidableEq, Repr

/-- Directory the script creates before writing a GIF. -/
def gifDir : String := "./data/dqn/gifs/"

/-- Decimal rendering of a natural number zero-padded to width 6, the
meaning of the 06d format specifier for a non-negative integer. -/
def format06d (n : ℕ) : String :=
  let s := toString n
  String.mk (List.replicate (6 - s.length) '0') ++ s

/-- Filepath of the GIF artifact for episode ep, as formatted in the source:
the gif directory, then "ep", the zero-padded episode index, and ".gif". -/
def gifFilepath (ep : ℕ) : String := gifDir ++ "ep" ++ format06d ep ++ ".gif"

/-- Head of each episode iteration: when the episode index is divisible by
10 and the global step count exceeds the buffer warmup period, the script
creates the gif directory and generates a GIF at the episode filepath. -/
def episodePrologue (ext : Ext) (s : EnvState) : Except String (List Event) :=
  if s.ep % 10 = 0 ∧ s.T > buffer_warmup_period then
    ext.makeDirs gifDir >>= fun _ =>
    ext.generateGif (gifFilepath s.ep) >>= fun _ =>
    pure [Event.makeDirs gifDir, Event.generateGif (gifFilepath s.ep)]
  else
    pure []

/-- Body of one inner-loop iteration: set the exploration rate from the
current step count, act, step the environment, add the transition to the
buffer, then batch-update when past the warmup period and synchronize the
target model when the step count hits the sync period. -/
def trainStep (ext : Ext) (s : EnvState) : Except String (EnvState × List Event) :=
  ext.step s >>= fun s' =>
    (if s'.T > buffer_warmup_period then
        ext.sample >>= fun _ => ext.batchUpdate >>= fun _ =>
          pure [Event.bufferSample, Event.batchUpdate]
      else pure []) >>= fun evs2 =>
    (if s'.T % target_model_sync_period = 0 then
        ext.syncTargetModel >>= fun _ => pure [Event.syncTargetModel]
      else pure []) >>= fun evs3 =>
    pure (s', [Event.setEpsilon (epsilon s.T), Event.envStep, Event.bufferAdd]
      ++ evs2 ++ evs3)

/-- Inner loop over at most n remaining steps, breaking when done. -/
def innerLoop (ext : Ext) : ℕ → EnvState → Except String (EnvState × List Event)
  | 0, s => pure (s, [])
  | n + 1, s =>
    trainStep ext s >>= fun p =>
      if p.1.done then pure p
      else innerLoop ext n p.1 >>= fun q => pure (q.1, p.2 ++ q.2)

/-- One iteration of the outer episode loop: the GIF prologue, an
environment reset, then the inner loop over at most numSteps steps. -/
def runEpisode (ext : Ext) (numSteps : ℕ) (s : EnvState) :
    Except String (EnvState × List Event) :=
  episodePrologue ext s >>= fun pre =>
  ext.reset s >>= fun s₀ =>
  innerLoop ext numSteps s₀ >>= fun p =>
  pure (p.1, pre ++ Event.reset :: p.2)

lemma ok_bind {α β : Type} (a : α) (f : α → Except String β) :
    (Except.ok a >>= f : Except String β) = f a := rfl

lemma error_bind {α β : Type} (e : String) (f : α → Except String β) :
    ((Except.error e : Except String α) >>= f : Except String β) = Except.error e := rfl

lemma pure_eq_ok {α : Type} (a : α) : (pure a : Except String α) = Except.ok a := rfl

lemma trainStep_ok (ext : Ext) (s s' : EnvState) (evs : List Event)
    (h : trainStep ext s = .ok (s', evs)) :
    ext.step s = .ok s' ∧
    evs = [Event.setEpsilon (epsilon s.T), Event.envStep, Event.bufferAdd]
      ++ (if s'.T > buffer_warmup_period then
            [Event.bufferSample, Event.batchUpdate] else [])
      ++ (if s'.T % target_model_sync_period = 0 then
            [Event.syncTargetModel] else []) := by
  unfold trainStep at h
  cases hstep : ext.step s with
  | error e => simp only [hstep, error_bind] at h; exact Except.noConfusion h
  | ok t =>
    simp only [hstep, ok_bind] at h
    by_cases h1 : t.T > buffer_warmup_period
    · rw [if_pos h1] at h
      cases hsa : ext.sample with
      | error e => simp only [hsa, error_bind] at h; exact Except.noConfusion h
      | ok u =>
        simp only [hsa, ok_bind] at h
        cases hbu : ext.batchUpdate with
        | error e => simp only [hbu, error_bind] at h; exact Except.noConfusion h
        | ok u2 =>
          simp only [hbu, ok_bind, pure_eq_ok] at h
          by_cases h2 : t.T % target_model_sync_period = 0
          · rw [if_pos h2] at h
            cases hsy : ext.syncTargetModel with
            | error e => simp only [hsy, error_bind] at h; exact Except.noConfusion h
            | ok u3 =>
              simp only [hsy, ok_bind, pure_eq_ok, Except.ok.injEq,
                Prod.mk.injEq] at h
              obtain ⟨rfl, rfl⟩ := h
              exact ⟨rfl, by rw [if_pos h1, if_pos h2]⟩
          · rw [if_neg h2] at h
            simp only [pure_eq_ok, ok_bind, Except.ok.injEq, Prod.mk.injEq] at h
            obtain ⟨rfl, rfl⟩ := h
            exact ⟨rfl, by rw [if_pos h1, if_neg h2]⟩
    · rw [if_neg h1] at h
      simp only [pure_eq_ok, ok_bind] at h
      by_cases h2 : t.T % target_model_sync_period = 0
      · rw [if_pos h2] at h
        cases hsy : ext.syncTargetModel with
        | error e => simp only [hsy, error_bind] at h; exact Except.noConfusion h
        | ok u3 =>
          simp only [hsy, ok_bind, pure_eq_ok, Except.ok.injEq, Prod.mk.injEq] at h
          obtain ⟨rfl, rfl⟩ := h
          exact ⟨rfl, by rw [if_neg h1, if_pos h2]⟩
      · rw [if_neg h2] at h
        simp only [pure_eq_ok, ok_bind, Except.ok.injEq, Prod.mk.injEq] at h
        obtain ⟨rfl, rfl⟩ := h
        exact ⟨rfl, by rw [if_neg h1, if_neg h2]⟩

/-- Benign external behavior used to exercise the loop body on concrete
inputs: every operation succeeds and env.step advances the step counter by
one and reports the episode as done. -/
def extOk : Ext where
  reset := fun s => .ok s
  step := fun s => .ok { s with T := s.T + 1, done := true }
  sample := .ok ()
  batchUpdate := .ok ()
  makeDirs := fun _ => .ok ()
  generateGif := fun _ => .ok ()
  syncTargetModel := .ok ()

/-- C7: within every training step that completes, the target model is
synchronized if and only if the global step counter is divisible by the
target-model sync period at that step. -/
theorem sync_iff_sync_period (ext : Ext) (s s' : EnvState) (evs : List Event)
    (h : trainStep ext s = .ok (s', evs)) :
    Event.syncTargetModel ∈ evs ↔ s'.T % target_model_sync_period = 0 := by
  obtain ⟨-, rfl⟩ := trainStep_ok ext s s' evs h
  by_cases h1 : s'.T > buffer_warmup_period <;>
    by_cases h2 : s'.T % target_model_sync_period = 0 <;>
    simp [h1, h2]

/-- Witness for C7 on a concrete step whose counter hits the sync period. -/
theorem sync_iff_sync_period_witness :
    Event.syncTargetModel ∈ [Event.setEpsilon (epsilon 9999), Event.envStep,
      Event.bufferAdd, Event.syncTargetModel] ↔
    (10000 : ℕ) % target_model_sync_period = 0 :=
  sync_iff_sync_period extOk ⟨9999, 0, false⟩ ⟨10000, 0, true⟩ _ (by rfl)

/-- C10: within every training step that completes, a batch update is
performed if and only if the global step counter strictly exceeds the
buffer warmup period of 50000 at that step. -/
theorem batch_update_iff_past_warmup (ext : Ext) (s s' : EnvState)
    (evs : List Event) (h : trainStep ext s = .ok (s', evs)) :
    Event.batchUpdate ∈ evs ↔ buffer_warmup_period < s'.T := by
  obtain ⟨-, rfl⟩ := trainStep_ok ext s s' evs h
  by_cases h1 : s'.T > buffer_warmup_period <;>
    by_cases h2 : s'.T % target_model_sync_period = 0 <;>
    simp [h1, h2]

/-- Witness for C10 on a concrete step just past the warmup period. -/
theorem batch_update_iff_past_warmup_witness :
    Event.batchUpdate ∈ [Event.setEpsilon (epsilon 50000), Event.envStep,
      Event.bufferAdd, Event.bufferSample, Event.batchUpdate] ↔
    buffer_warmup_period < 50001 :=
  batch_update_iff_past_warmup extOk ⟨50000, 0, false⟩ ⟨50001, 0, true⟩ _ (by rfl)

lemma episodePrologue_ok (ext : Ext) (s : EnvState) (pre : List Event)
    (h : episodePrologue ext s = .ok pre) :
    pre = if s.ep % 10 = 0 ∧ s.T > buffer_warmup_period then
      [Event.makeDirs gifDir, Event.generateGif (gifFilepath s.ep)] else [] := by
  unfold episodePrologue at h
  by_cases hc : s.ep % 10 = 0 ∧ s.T > buffer_warmup_period
  · rw [if_pos hc] at h
    rw [if_pos hc]
    cases hmd : ext.makeDirs gifDir with
    | error e => simp only [hmd, error_bind] at h; exact Except.noConfusion h
    | ok u =>
      simp only [hmd, ok_bind] at h
      cases hgg : ext.generateGif (gifFilepath s.ep) with
      | error e => simp only [hgg, error_bind] at h; exact Except.noConfusion h
      | ok u2 =>
        simp only [hgg, ok_bind, pure_eq_ok, Except.ok.injEq] at h
        exact h.symm
  · rw [if_neg hc] at h
    rw [if_neg hc]
    simp only [pure_eq_ok, Except.ok.injEq] at h
    exact h.symm

lemma trainStep_no_gif (ext : Ext) (s s' : EnvState) (evs : List Event)
    (p : String) (h : trainStep ext s = .ok (s', evs)) :
    Event.generateGif p ∉ evs := by
  obtain ⟨-, rfl⟩ := trainStep_ok ext s s' evs h
  by_cases h1 : s'.T > buffer_warmup_period <;>
    by_cases h2 : s'.T % target_model_sync_period = 0 <;>
    simp [h1, h2]

lemma innerLoop_no_gif (ext : Ext) (p : String) :
    ∀ (n : ℕ) (s s' : EnvState) (evs : List Event),
      innerLoop ext n s = .ok (s', evs) → Event.generateGif p ∉ evs
  | 0, s, s', evs, h => by
    simp only [innerLoop, pure_eq_ok, Except.ok.injEq, Prod.mk.injEq] at h
    rw [← h.2]
    simp
  | n + 1, s, s', evs, h => by
    simp only [innerLoop] at h
    cases htr : trainStep ext s with
    | error e => simp only [htr, error_bind] at h; exact Except.noConfusion h
    | ok q =>
      simp only [htr, ok_bind] at h
      by_cases hd : q.1.done
      · rw [if_pos hd] at h
        simp only [pure_eq_ok, Except.ok.injEq] at h
        subst h
        exact trainStep_no_gif ext s s' evs p htr
      · rw [if_neg hd] at h
        cases hil : innerLoop ext n q.1 with
        | error e => simp only [hil, error_bind] at h; exact Except.noConfusion h
        | ok r =>
          simp only [hil, ok_bind, pure_eq_ok, Except.ok.injEq, Prod.mk.injEq] at h
          rw [← h.2]
          intro hm
          rcases List.mem_append.mp hm with hm | hm
          · exact trainStep_no_gif ext s q.1 q.2 p htr hm
          · exact innerLoop_no_gif ext p n q.1 r.1 r.2 hil hm

lemma runEpisode_ok (ext : Ext) (n : ℕ) (s s₁ : EnvState) (evs : List Event)
    (h : runEpisode ext n s = .ok (s₁, evs)) :
    ∃ pre s₀ evs', episodePrologue ext s = .ok pre ∧ ext.reset s = .ok s₀ ∧
      innerLoop ext n s₀ = .ok (s₁, evs') ∧ evs = pre ++ Event.reset :: evs' := by
  unfold runEpisode at h
  cases hpre : episodePrologue ext s with
  | error e => simp only [hpre, error_bind] at h; exact Except.noConfusion h
  | ok pre =>
    simp only [hpre, ok_bind] at h
    cases hres : ext.reset s with
    | error e => simp only [hres, error_bind] at h; exact Except.noConfusion h
    | ok s₀ =>
      simp only [hres, ok_bind] at h
      cases hil : innerLoop ext n s₀ with
      | error e => simp only [hil, error_bind] at h; exact Except.noConfusion h
      | ok r =>
        simp only [hil, ok_bind, pure_eq_ok, Except.ok.injEq, Prod.mk.injEq] at h
        refine ⟨pre, s₀, r.2, rfl, rfl, ?_, h.2.symm⟩
        rw [← h.1]
        exact hil

/-- C6: in every episode iteration that completes, a GIF is generated if
and only if the episode index at the head of the iteration is divisible by
10 and the global step count exceeds 50000 there, and every generated GIF
is written to the fixed relative path given by gifFilepath, the zero-padded
episode filename under the gif directory. The trace form shows the GIF call
happens only in the prologue, before the reset that starts the episode. -/
theorem gif_only_at_episode_head (ext : Ext) (n : ℕ) (s s₁ : EnvState)
    (evs : List Event) (p : String) (h : runEpisode ext n s = .ok (s₁, evs)) :
    Event.generateGif p ∈ evs ↔
      s.ep % 10 = 0 ∧ buffer_warmup_period < s.T ∧ p = gifFilepath s.ep := by
  obtain ⟨pre, s₀, evs', hpre, hres, hil, rfl⟩ := runEpisode_ok ext n s s₁ evs h
  have hpre' := episodePrologue_ok ext s pre hpre
  have hng := innerLoop_no_gif ext p n s₀ s₁ evs' hil
  constructor
  · intro hm
    rcases List.mem_append.mp hm with hm | hm
    · rw [hpre'] at hm
      by_cases hc : s.ep % 10 = 0 ∧ s.T > buffer_warmup_period
      · rw [if_pos hc] at hm
        simp only [List.mem_cons, List.mem_singleton] at hm
        rcases hm with hm | hm | hm
        · exact absurd hm (by simp)
        · exact ⟨hc.1, hc.2, (Event.generateGif.inj hm)⟩
        · exact absurd hm (by simp)
      · rw [if_neg hc] at hm
        exact absurd hm (List.not_mem_nil _)
    · rcases List.mem_cons.mp hm with hm | hm
      · exact absurd hm (by simp)
      · exact absurd hm hng
  · rintro ⟨h1, h2, rfl⟩
    rw [hpre']
    rw [if_pos ⟨h1, h2⟩]
    simp

/-- Witness for C6 on a concrete episode whose prologue fires. -/
theorem gif_only_at_episode_head_witness :
    Event.generateGif (gifFilepath 10) ∈
      [Event.makeDirs gifDir, Event.generateGif (gifFilepath 10), Event.reset,
       Event.setEpsilon (epsilon 50001), Event.envStep, Event.bufferAdd,
       Event.bufferSample, Event.batchUpdate] ↔
    (10 : ℕ) % 10 = 0 ∧ buffer_warmup_period < 50001 ∧
      gifFilepath 10 = gifFilepath 10 :=
  gif_only_at_episode_head extOk 1 ⟨50001, 10, false⟩ ⟨50002, 10, true⟩ _
    (gifFilepath 10) (by rfl)

/-- External behavior identical to extOk except that the environment reset
call fails. -/
def extResetFails : Ext where
  reset := fun _ => .error "reset failed"
  step := fun s => .ok { s with T := s.T + 1, done := true }
  sample := .ok ()
  batchUpdate := .ok ()
  makeDirs := fun _ => .ok ()
  generateGif := fun _ => .ok ()
  syncTargetModel := .ok ()

/-- C8: the script installs no error handler: a failure of any external
call made by the loop body (os.makedirs, generate_gif, env.reset, env.step,
buffer.sample, q.batch_update) propagates unchanged to the result of the
enclosing episode or step, terminating it with that error. -/
theorem errors_propagate_uncaught (ext : Ext) (n : ℕ) (s s' : EnvState)
    (e : String) :
    (episodePrologue ext s = .error e → runEpisode ext n s = .error e) ∧
    (∀ pre, episodePrologue ext s = .ok pre → ext.reset s = .error e →
      runEpisode ext n s = .error e) ∧
    (∀ pre s₀, episodePrologue ext s = .ok pre → ext.reset s = .ok s₀ →
      innerLoop ext n s₀ = .error e → runEpisode ext n s = .error e) ∧
    (trainStep ext s = .error e → innerLoop ext (n + 1) s = .error e) ∧
    (ext.step s = .error e → trainStep ext s = .error e) ∧
    (ext.step s = .ok s' → s'.T > buffer_warmup_period → ext.sample = .error e →
      trainStep ext s = .error e) ∧
    (ext.step s = .ok s' → s'.T > buffer_warmup_period → ext.sample = .ok () →
      ext.batchUpdate = .error e → trainStep ext s = .error e) ∧
    (s.ep % 10 = 0 → s.T > buffer_warmup_period →
      ext.makeDirs gifDir = .error e → episodePrologue ext s = .error e) ∧
    (s.ep % 10 = 0 → s.T > buffer_warmup_period → ext.makeDirs gifDir = .ok () →
      ext.generateGif (gifFilepath s.ep) = .error e →
      episodePrologue ext s = .error e) := by
  refine ⟨?_, ?_, ?_, ?_, ?_, ?_, ?_, ?_, ?_⟩
  · intro h
    unfold runEpisode
    rw [h, error_bind]
  · intro pre h1 h2
    unfold runEpisode
    rw [h1, ok_bind, h2, error_bind]
  · intro pre s₀ h1 h2 h3
    unfold runEpisode
    rw [h1, ok_bind, h2, ok_bind, h3, error_bind]
  · intro h
    simp only [innerLoop]
    rw [h, error_bind]
  · intro h
    unfold trainStep
    rw [h, error_bind]
  · intro h1 h2 h3
    unfold trainStep
    rw [h1, ok_bind, if_pos h2, h3]
    simp only [error_bind]
  · intro h1 h2 h3 h4
    unfold trainStep
    rw [h1, ok_bind, if_pos h2, h3, ok_bind, h4]
    simp only [error_bind]
  · intro h1 h2 h3
    unfold episodePrologue
    rw [if_pos ⟨h1, h2⟩, h3, error_bind]
  · intro h1 h2 h3 h4
    unfold episodePrologue
    rw [if_pos ⟨h1, h2⟩, h3, ok_bind, h4, error_bind]

/-- Witness for C8: a concrete run in which the reset call fails, and the
whole episode fails with that error. -/
theorem errors_propagate_uncaught_witness :
    runEpisode extResetFails 1 ⟨0, 1, false⟩ = .error "reset failed" :=
  (errors_propagate_uncaught extResetFails 1 ⟨0, 1, false⟩ ⟨0, 1, false⟩
    "reset failed").2.1 [] (by rfl) (by rfl)

end DQN
